import Mathlib

/-!
# Verification of the zigpy-xbee serial protocol engine

A shallow embedding of the core of `zigpy_xbee` (the XBee serial driver):
the byte codec and framer of `zigpy_xbee/uart.py` (class `Gateway`) and the
request/response correlation layer of `zigpy_xbee/api.py` (class `XBee`).

Bytes are modelled as `Nat` (the Python code works on `bytes`, i.e. values
in `0..255`; where a definition is total over `Nat` we keep it total, which
only widens the domain and never changes behaviour on actual bytes).
Python `bytes` values become `List Nat`, dictionaries become functions into
`Option`, raised exceptions become `Except` errors, and asyncio futures
become an explicit two-state value (`pending`/`done`) with the outcome of
resolving them returned explicitly.
-/

namespace ZigpyXbee

/-! ## Byte codec (uart.py, class Gateway) -/

/-- `Gateway.START` (uart.py line 13): frame start marker `0x7E`. -/
def START : Nat := 0x7E

/-- `Gateway.ESCAPE` (uart.py line 14): escape marker `0x7D`. -/
def ESCAPE : Nat := 0x7D

/-- `Gateway.XON` (uart.py line 15): flow control byte `0x11`. -/
def XON : Nat := 0x11

/-- `Gateway.XOFF` (uart.py line 16): flow control byte `0x13`. -/
def XOFF : Nat := 0x13

/-- `Gateway.RESERVED` (uart.py line 18): the bytes that must be escaped. -/
def RESERVED : List Nat := [START, ESCAPE, XON, XOFF]

/-- `Gateway._escape` (uart.py lines 150-158): every reserved byte becomes
`ESCAPE` followed by the byte XOR `0x20`; all other bytes pass through. -/
def escape : List Nat → List Nat
  | [] => []
  | b :: rest =>
    if b ∈ RESERVED then ESCAPE :: (b ^^^ 0x20) :: escape rest
    else b :: escape rest

/-- `Gateway._get_unescaped` (uart.py lines 133-148): produce `n` logical
bytes from the head of `data`, reversing the escape transform, together
with the unconsumed remainder; `none` models the Python `(None, None)`
underflow result (fewer than `n` logical bytes available, or a trailing
escape marker with no byte after it).  The Python argument order is
`(data, n)`; `n` comes first here only so that the recursion is structural
on it. -/
def getUnescaped : Nat → List Nat → Option (List Nat × List Nat)
  | 0, data => some ([], data)
  | _ + 1, [] => none
  | n + 1, b :: rest =>
    if b = ESCAPE then
      match rest with
      | [] => none
      | b2 :: rest2 => (getUnescaped n rest2).map fun p => ((b2 ^^^ 0x20) :: p.1, p.2)
    else
      (getUnescaped n rest).map fun p => (b :: p.1, p.2)

/-- `Gateway._checksum` (uart.py lines 160-161): `0xFF - (sum(data) % 0x100)`. -/
def checksum (data : List Nat) : Nat :=
  0xFF - data.sum % 0x100

/-- `int.from_bytes(.., "big")` (uart.py line 118). -/
def fromBytesBE (data : List Nat) : Nat :=
  data.foldl (fun acc b => acc * 0x100 + b) 0

/-- `self._buffer.find(self.START)` followed by `self._buffer[first_start + 1:]`
(uart.py lines 109-113): the part of the buffer strictly after the first
start marker, or `none` when the buffer holds no start marker. -/
def dropToStart : List Nat → Option (List Nat)
  | [] => none
  | b :: rest => if b = START then some rest else dropToStart rest

/-- `Gateway._extract_frame` (uart.py lines 108-131) as a function from the
buffer to `(extracted frame or none, new buffer)`.  The buffer is left
unchanged on every "not yet" path (no start marker, or underflow while
unescaping the length, payload or checksum); on a checksum mismatch the
bytes through the checksum are consumed and no frame is returned; on a
checksum match the same bytes are consumed and the payload is returned. -/
def extractFrame (buf : List Nat) : Option (List Nat) × List Nat :=
  match dropToStart buf with
  | none => (none, buf)
  | some data =>
    match getUnescaped 2 data with
    | none => (none, buf)
    | some (lenBytes, data1) =>
      match getUnescaped (fromBytesBE lenBytes) data1 with
      | none => (none, buf)
      | some (frame, data2) =>
        match getUnescaped 1 data2 with
        | none => (none, buf)
        | some (chk, data3) =>
          if checksum frame = chk.headD 0 then (some frame, data3)
          else (none, data3)

/-! ### Framer loop (uart.py, `Gateway.data_received`) -/

/-- The `while self._buffer:` loop of `Gateway.data_received` (uart.py lines
87-91), written with explicit fuel so that it is structurally recursive:
repeatedly extract a frame and collect it for dispatch, stopping as soon as
`_extract_frame` yields no frame.  Returns the dispatched frames in order
together with the final buffer.  `processFramesFuel_irrelevant` below shows
the fuel used by `processFrames` never runs out, so this is exactly the
unbounded Python loop. -/
def processFramesFuel : Nat → List Nat → List (List Nat) × List Nat
  | 0, buf => ([], buf)
  | fuel + 1, buf =>
    if buf = [] then ([], buf)
    else
      match extractFrame buf with
      | (none, buf') => ([], buf')
      | (some f, buf') =>
        let r := processFramesFuel fuel buf'
        (f :: r.1, r.2)

/-- The frame-extraction loop of `Gateway.data_received` on a buffer. -/
def processFrames (buf : List Nat) : List (List Nat) × List Nat :=
  processFramesFuel (buf.length + 1) buf

/-- Framer state: `Gateway._buffer` and `Gateway._in_command_mode`. -/
structure GatewayState where
  buffer : List Nat
  inCommandMode : Bool
deriving Repr, DecidableEq

/-- `Gateway.data_received` (uart.py lines 84-94): append the chunk to the
buffer, loop extracting and dispatching frames, then (command mode only) if
the remaining buffer ends in `\r` hand everything before it to the
command-mode response handler and clear the buffer.  Returns
`(dispatched frames, command-mode response if any, new state)`. -/
def dataReceived (st : GatewayState) (chunk : List Nat) :
    List (List Nat) × Option (List Nat) × GatewayState :=
  let r := processFrames (st.buffer ++ chunk)
  if st.inCommandMode ∧ r.2.getLast? = some 0x0D then
    (r.1, some r.2.dropLast, { st with buffer := [] })
  else
    (r.1, none, { st with buffer := r.2 })

/-! ### Basic facts about the codec -/

theorem getUnescaped_length {n : Nat} {data r rest : List Nat}
    (h : getUnescaped n data = some (r, rest)) :
    r.length = n ∧ rest.length + n ≤ data.length := by
  induction n generalizing data r rest with
  | zero =>
    simp only [getUnescaped, Option.some.injEq, Prod.mk.injEq] at h
    obtain ⟨rfl, rfl⟩ := h
    simp
  | succ n ih =>
    cases data with
    | nil => simp [getUnescaped] at h
    | cons b rest0 =>
      by_cases hb : b = ESCAPE
      · subst hb
        cases rest0 with
        | nil => simp [getUnescaped] at h
        | cons b2 rest2 =>
          cases hrec : getUnescaped n rest2 with
          | none => simp [getUnescaped, hrec] at h
          | some p =>
            obtain ⟨r', rest'⟩ := p
            simp only [getUnescaped, if_pos rfl, hrec, Option.map_some',
              Option.some.injEq, Prod.mk.injEq] at h
            obtain ⟨rfl, rfl⟩ := h
            obtain ⟨h1, h2⟩ := ih hrec
            refine ⟨by simp [h1], ?_⟩
            simp only [List.length_cons]
            omega
      · cases hrec : getUnescaped n rest0 with
        | none => simp [getUnescaped, if_neg hb, hrec] at h
        | some p =>
          obtain ⟨r', rest'⟩ := p
          simp only [getUnescaped, if_neg hb, hrec, Option.map_some',
            Option.some.injEq, Prod.mk.injEq] at h
          obtain ⟨rfl, rfl⟩ := h
          obtain ⟨h1, h2⟩ := ih hrec
          refine ⟨by simp [h1], ?_⟩
          simp only [List.length_cons]
          omega

theorem dropToStart_length {buf data : List Nat} (h : dropToStart buf = some data) :
    data.length < buf.length := by
  induction buf with
  | nil => simp [dropToStart] at h
  | cons b rest ih =>
    simp only [dropToStart] at h
    by_cases hb : b = START
    · simp only [if_pos hb, Option.some.injEq] at h
      simp [← h]
    · simp only [if_neg hb] at h
      exact Nat.lt_trans (ih h) (by simp)

/-- Whenever `_extract_frame` returns a frame, the buffer strictly shrinks
(the start marker, length field, payload and checksum are all consumed). -/
theorem extractFrame_some_length {buf f buf' : List Nat}
    (h : extractFrame buf = (some f, buf')) : buf'.length < buf.length := by
  unfold extractFrame at h
  match h0 : dropToStart buf with
  | none => simp [h0] at h
  | some data =>
    simp only [h0] at h
    match h1 : getUnescaped 2 data with
    | none => simp [h1] at h
    | some (lenBytes, data1) =>
      simp only [h1] at h
      match h2 : getUnescaped (fromBytesBE lenBytes) data1 with
      | none => simp [h2] at h
      | some (frame, data2) =>
        simp only [h2] at h
        match h3 : getUnescaped 1 data2 with
        | none => simp [h3] at h
        | some (chk, data3) =>
          simp only [h3] at h
          have l0 := dropToStart_length h0
          have l1 := (getUnescaped_length h1).2
          have l2 := (getUnescaped_length h2).2
          have l3 := (getUnescaped_length h3).2
          split at h <;> simp only [Prod.mk.injEq] at h
          · obtain ⟨-, rfl⟩ := h
            omega
          · exact absurd h.1 (by simp)

/-- The fuel given to `processFramesFuel` is irrelevant as soon as it
exceeds the buffer length: the loop consumes at least one byte per
extracted frame, so `processFrames` computes the unbounded Python loop. -/
theorem processFramesFuel_irrelevant {f1 f2 : Nat} (buf : List Nat)
    (h1 : buf.length < f1) (h2 : buf.length < f2) :
    processFramesFuel f1 buf = processFramesFuel f2 buf := by
  induction f1 generalizing f2 buf with
  | zero => omega
  | succ f1 ih =>
    match f2 with
    | 0 => omega
    | f2 + 1 =>
      simp only [processFramesFuel]
      by_cases hb : buf = []
      · simp [hb]
      · simp only [if_neg hb]
        cases he : extractFrame buf with
        | mk fo buf' =>
          cases fo with
          | none => rfl
          | some f =>
            have hlt := extractFrame_some_length he
            have ha : buf'.length < f1 := by omega
            have hb2 : buf'.length < f2 := by omega
            dsimp only
            rw [ih buf' ha hb2]

/-! ## Claim C1: escape / unescape round-trip -/

theorem xor20_xor20 (b : Nat) : b ^^^ 0x20 ^^^ 0x20 = b := by
  simp [Nat.xor_assoc]

/-- **C1.** For every byte sequence `b`, unescaping the escaped form of `b`
while requesting `b.length` logical bytes yields exactly `(b, [])`:
`_get_unescaped(_escape(b), len(b)) == (b, b"")`.  (Holds for arbitrary
`Nat` sequences, in particular for runs of reserved bytes.) -/
theorem escape_unescape_roundtrip (b : List Nat) :
    getUnescaped b.length (escape b) = some (b, []) := by
  induction b with
  | nil => simp [escape, getUnescaped]
  | cons x xs ih =>
    by_cases hx : x ∈ RESERVED
    · have hlen : (x :: xs).length = xs.length + 1 := rfl
      simp only [escape, if_pos hx, hlen, getUnescaped, if_pos rfl]
      simp [ih, xor20_xor20]
    · have hxe : x ≠ ESCAPE := by
        intro he
        exact hx (by simp [he, RESERVED])
      have hlen : (x :: xs).length = xs.length + 1 := rfl
      simp only [escape, if_neg hx, hlen, getUnescaped, if_neg hxe]
      simp [ih]

/-! ## Claim C2: buffer consumption asymmetry of `_extract_frame` -/

/-- **C2.** `_extract_frame` is asymmetric in how it consumes the buffer:
when the frame found at the first start marker fails its checksum, every
byte up through the checksum is removed from the buffer and no frame is
returned; whereas on insufficient data — no start marker yet, or underflow
while unescaping the length field, the payload, or the checksum byte — it
returns `none` and leaves the buffer completely unchanged. -/
theorem extract_frame_consumption (buf : List Nat) :
    (∀ data lb d1 fr d2 ck d3,
        dropToStart buf = some data →
        getUnescaped 2 data = some (lb, d1) →
        getUnescaped (fromBytesBE lb) d1 = some (fr, d2) →
        getUnescaped 1 d2 = some (ck, d3) →
        checksum fr ≠ ck.headD 0 →
        extractFrame buf = (none, d3)) ∧
    (dropToStart buf = none → extractFrame buf = (none, buf)) ∧
    (∀ data, dropToStart buf = some data →
        getUnescaped 2 data = none →
        extractFrame buf = (none, buf)) ∧
    (∀ data lb d1, dropToStart buf = some data →
        getUnescaped 2 data = some (lb, d1) →
        getUnescaped (fromBytesBE lb) d1 = none →
        extractFrame buf = (none, buf)) ∧
    (∀ data lb d1 fr d2, dropToStart buf = some data →
        getUnescaped 2 data = some (lb, d1) →
        getUnescaped (fromBytesBE lb) d1 = some (fr, d2) →
        getUnescaped 1 d2 = none →
        extractFrame buf = (none, buf)) := by
  refine ⟨?_, ?_, ?_, ?_, ?_⟩
  · intro data lb d1 fr d2 ck d3 h0 h1 h2 h3 hc
    simp only [extractFrame, h0, h1, h2, h3, if_neg hc]
  · intro h0
    simp only [extractFrame, h0]
  · intro data h0 h1
    simp only [extractFrame, h0, h1]
  · intro data lb d1 h0 h1 h2
    simp only [extractFrame, h0, h1, h2]
  · intro data lb d1 fr d2 h0 h1 h2 h3
    simp only [extractFrame, h0, h1, h2, h3]

/-- Witness for C2: the two-byte payload `23 11` framed with a corrupted
checksum byte `CA` is consumed entirely without yielding a frame, while a
truncated buffer (start marker plus one length byte) is left untouched. -/
theorem extract_frame_consumption_witness :
    extractFrame [0x7E, 0x00, 0x02, 0x23, 0x7D, 0x31, 0xCA] = (none, []) ∧
    extractFrame [0x7E, 0x00] = (none, [0x7E, 0x00]) :=
  ⟨(extract_frame_consumption [0x7E, 0x00, 0x02, 0x23, 0x7D, 0x31, 0xCA]).1
      [0x00, 0x02, 0x23, 0x7D, 0x31, 0xCA] [0x00, 0x02] [0x23, 0x7D, 0x31, 0xCA]
      [0x23, 0x11] [0xCA] [0xCA] [] rfl rfl rfl rfl (by decide),
   (extract_frame_consumption [0x7E, 0x00]).2.2.1 [0x00] rfl rfl⟩

/-! ## Claim C9: checksum function and frame acceptance -/

/-- **C9.** The checksum is `0xFF - (sum(data) mod 256)` for every byte
sequence; in particular `checksum(b"\x23\x11") = 0xCB`; and a received
frame whose parse reaches the checksum byte is accepted by
`_extract_frame` exactly when the computed checksum of its unescaped
payload equals the received checksum byte.  The final conjunct is the
spec's concrete example: the escaped, start-marker-prefixed frame for
payload `23 11` deserializes to exactly that payload. -/
theorem checksum_correct :
    (∀ data : List Nat, checksum data = 0xFF - data.sum % 0x100) ∧
    checksum [0x23, 0x11] = 0xCB ∧
    (∀ buf data lb d1 fr d2 ck d3,
        dropToStart buf = some data →
        getUnescaped 2 data = some (lb, d1) →
        getUnescaped (fromBytesBE lb) d1 = some (fr, d2) →
        getUnescaped 1 d2 = some (ck, d3) →
        ((extractFrame buf).1 = some fr ↔ checksum fr = ck.headD 0)) ∧
    extractFrame [0x7E, 0x00, 0x02, 0x23, 0x7D, 0x31, 0xCB] = (some [0x23, 0x11], []) := by
  refine ⟨fun _ => rfl, by decide, ?_, by decide⟩
  intro buf data lb d1 fr d2 ck d3 h0 h1 h2 h3
  simp only [extractFrame, h0, h1, h2, h3]
  by_cases hc : checksum fr = ck.headD 0
  · simp [List.headD_eq_head?] at hc ⊢
    simp [hc]
  · simp [List.headD_eq_head?] at hc ⊢
    simp [hc]

/-- Witness for C9: the valid frame for payload `23 11` is accepted. -/
theorem checksum_correct_witness :
    (extractFrame [0x7E, 0x00, 0x02, 0x23, 0x7D, 0x31, 0xCB]).1 = some [0x23, 0x11] :=
  (checksum_correct.2.2.1 [0x7E, 0x00, 0x02, 0x23, 0x7D, 0x31, 0xCB]
      [0x00, 0x02, 0x23, 0x7D, 0x31, 0xCB] [0x00, 0x02] [0x23, 0x7D, 0x31, 0xCB]
      [0x23, 0x11] [0xCB] [0xCB] [] rfl rfl rfl rfl).mpr (by decide)

/-! ## Claim C3: the `data_received` dispatch loop and resynchronization

The claim says that when the buffer holds a corrupt-checksum frame
followed by a complete valid frame, the valid frame is still dispatched
"within the same processing loop".  The code does not do this: the
`while self._buffer:` loop of `data_received` (uart.py lines 87-91)
breaks as soon as `_extract_frame` returns `None`, and `_extract_frame`
returns `None` precisely when it drops a corrupt frame (uart.py lines
125-128).  The corrupt frame is consumed, but the following valid frame
stays in the buffer and is only dispatched on the *next* call to
`data_received`. -/

/-- **C3 counterexample.** A buffer holding the corrupt frame
`7E 00 02 23 7D 31 CA` (checksum byte should be `CB`) directly followed by
the complete valid frame `7E 00 02 23 7D 31 CB`: `data_received` dispatches
no frame at all in this call — even though the remaining buffer is exactly
the valid frame, which `_extract_frame` would accept. -/
theorem data_received_corrupt_then_valid_no_dispatch :
    dataReceived ⟨[], false⟩
        ([0x7E, 0x00, 0x02, 0x23, 0x7D, 0x31, 0xCA] ++
          [0x7E, 0x00, 0x02, 0x23, 0x7D, 0x31, 0xCB]) =
      ([], none, ⟨[0x7E, 0x00, 0x02, 0x23, 0x7D, 0x31, 0xCB], false⟩) ∧
    extractFrame [0x7E, 0x00, 0x02, 0x23, 0x7D, 0x31, 0xCB] = (some [0x23, 0x11], []) := by
  constructor
  · decide
  · decide

/-- **C3 amended.** Each call to `data_received` appends the chunk to the
buffer and repeatedly extracts and dispatches frames, but the loop stops as
soon as `_extract_frame` returns no frame — which happens both when no
complete frame remains *and* immediately after a corrupt-checksum frame is
consumed.  Consequently, with a corrupt frame followed by a complete valid
frame in the buffer, the call drops the corrupt frame and dispatches
nothing; the valid frame remains buffered and is dispatched by the next
call to `data_received` (resynchronization across calls, not within the
same processing loop). -/
theorem data_received_resync_next_call :
    (∀ buf r, extractFrame buf = (none, r) → processFrames buf = ([], r)) ∧
    dataReceived ⟨[], false⟩
        ([0x7E, 0x00, 0x02, 0x23, 0x7D, 0x31, 0xCA] ++
          [0x7E, 0x00, 0x02, 0x23, 0x7D, 0x31, 0xCB]) =
      ([], none, ⟨[0x7E, 0x00, 0x02, 0x23, 0x7D, 0x31, 0xCB], false⟩) ∧
    dataReceived ⟨[0x7E, 0x00, 0x02, 0x23, 0x7D, 0x31, 0xCB], false⟩ [] =
      ([[0x23, 0x11]], none, ⟨[], false⟩) := by
  refine ⟨?_, by decide, by decide⟩
  intro buf r he
  show processFramesFuel (buf.length + 1) buf = ([], r)
  simp only [processFramesFuel]
  by_cases hbuf : buf = []
  · subst hbuf
    simp only [extractFrame, dropToStart, Prod.mk.injEq] at he
    simp [← he.2]
  · rw [if_neg hbuf, he]

/-- Witness for the amended C3: the loop stops right after consuming the
corrupt frame, leaving the valid frame in the buffer. -/
theorem data_received_resync_next_call_witness :
    processFrames
        ([0x7E, 0x00, 0x02, 0x23, 0x7D, 0x31, 0xCA] ++
          [0x7E, 0x00, 0x02, 0x23, 0x7D, 0x31, 0xCB]) =
      ([], [0x7E, 0x00, 0x02, 0x23, 0x7D, 0x31, 0xCB]) :=
  data_received_resync_next_call.1 _ _ (by decide)

/-! ## Request/response correlator (api.py, class XBee)

The handlers of `XBee` mutate `self._awaiting` (a dict from frame id to a
1-tuple holding an asyncio future) and complete futures.  They are
modelled as pure functions from the table to the table, returning the
action taken on the future explicitly; Python exceptions escaping the
handler become `Except.error` values. -/

/-- The Python exceptions that can escape the modelled api.py code. -/
inductive PyErr
  | keyError
  | valueError
  | typeError
  | invalidStateError
  | indexError
  | attributeError
deriving Repr, DecidableEq

/-- An asyncio future as the handlers observe it: still pending, or already
completed (resolved, rejected or cancelled); `set_result`/`set_exception`
on a completed future raise `InvalidStateError`. -/
inductive Fut
  | pending
  | done
deriving Repr, DecidableEq

/-- The `XBee._awaiting` table (api.py line 259): frame id to future. -/
def Awaiting : Type := Nat → Option Fut

/-- An empty `_awaiting` table. -/
def Awaiting.empty : Awaiting := fun _ => none

/-- `self._awaiting.pop(frame_id)`'s effect on the table. -/
def Awaiting.pop (a : Awaiting) (frameId : Nat) : Awaiting :=
  fun k => if k = frameId then none else a k

/-- `self._awaiting[frame_id] = (future,)`. -/
def Awaiting.insert (a : Awaiting) (frameId : Nat) (f : Fut) : Awaiting :=
  fun k => if k = frameId then some f else a k

/-- `ATCommandResult` (api.py lines 245-250). -/
inductive ATCommandResult
  | OK
  | ERROR
  | INVALID_COMMAND
  | INVALID_PARAMETER
  | TX_FAILURE
deriving Repr, DecidableEq

/-- `ATCommandResult(status)` together with the `ValueError` fallback of
api.py lines 412-415: a status byte outside the enum maps to `ERROR`. -/
def atCommandResult (status : Nat) : ATCommandResult :=
  if status = 0 then .OK
  else if status = 1 then .ERROR
  else if status = 2 then .INVALID_COMMAND
  else if status = 3 then .INVALID_PARAMETER
  else if status = 4 then .TX_FAILURE
  else .ERROR

/-- The value codecs appearing in the `AT_COMMANDS` table (api.py lines
112-229): fixed-width unsigned integers, a boolean, raw bytes, or the
`types` module itself (entries `NI`, `DA`, `ND`). -/
inductive ATTyp
  | u8
  | u16
  | u32
  | u64
  | boolT
  | bytesT
  | moduleT
deriving Repr, DecidableEq

/-- A decoded field value: an integer or a byte blob. -/
inductive FieldValue
  | num (n : Nat)
  | blob (bs : List Nat)
  | numList (ns : List Nat)
deriving Repr, DecidableEq

/-- `AT_COMMANDS` (api.py lines 112-229), in source order; `none` in the
second component is the Python `None` ("no value" response type).  The
duplicate `SI` entry of the source dict is kept (both bind `None`). -/
def atEntriesAddressing : List (String × Option ATTyp) :=
  [("DH", some ATTyp.u32), ("DL", some ATTyp.u32), ("MY", some ATTyp.u16),
   ("MP", some ATTyp.u16), ("NC", some ATTyp.u32), ("SH", some ATTyp.u32),
   ("SL", some ATTyp.u32), ("NI", some ATTyp.moduleT), ("SE", some ATTyp.u8),
   ("DE", some ATTyp.u8), ("CI", some ATTyp.u16), ("TO", some ATTyp.u8),
   ("NP", some ATTyp.u16), ("DD", some ATTyp.u32), ("CR", some ATTyp.u8)]

def atEntriesNetworking : List (String × Option ATTyp) :=
  [("CH", some ATTyp.u8), ("DA", some ATTyp.moduleT), ("ID", some ATTyp.u64),
   ("OP", some ATTyp.u64), ("NH", some ATTyp.u8), ("BH", some ATTyp.u8),
   ("OI", some ATTyp.u16), ("NT", some ATTyp.u8), ("NO", some ATTyp.u8),
   ("SC", some ATTyp.u16), ("SD", some ATTyp.u8), ("ZS", some ATTyp.u8),
   ("NJ", some ATTyp.u8), ("JV", some ATTyp.boolT), ("NW", some ATTyp.u16),
   ("JN", some ATTyp.boolT), ("AR", some ATTyp.u8), ("DJ", some ATTyp.boolT),
   ("II", some ATTyp.u16)]

def atEntriesSecurityRf : List (String × Option ATTyp) :=
  [("EE", some ATTyp.boolT), ("EO", some ATTyp.u8), ("NK", some ATTyp.bytesT),
   ("KY", some ATTyp.bytesT),
   ("PL", some ATTyp.u8), ("PM", some ATTyp.boolT), ("DB", some ATTyp.u8),
   ("PP", some ATTyp.u8), ("AP", some ATTyp.u8), ("AO", some ATTyp.u8),
   ("BD", some ATTyp.u8), ("NB", some ATTyp.u8), ("SB", some ATTyp.u8),
   ("RO", some ATTyp.u8), ("D6", some ATTyp.u8), ("D7", some ATTyp.u8),
   ("P3", some ATTyp.u8), ("P4", some ATTyp.u8)]

def atEntriesIo : List (String × Option ATTyp) :=
  [("IR", some ATTyp.u16), ("IC", some ATTyp.u16), ("D0", some ATTyp.u8),
   ("D1", some ATTyp.u8), ("D2", some ATTyp.u8), ("D3", some ATTyp.u8),
   ("D4", some ATTyp.u8), ("D5", some ATTyp.u8), ("D8", some ATTyp.u8),
   ("D9", some ATTyp.u8), ("P0", some ATTyp.u8), ("P1", some ATTyp.u8),
   ("P2", some ATTyp.u8), ("P5", some ATTyp.u8), ("P6", some ATTyp.u8),
   ("P7", some ATTyp.u8), ("P8", some ATTyp.u8), ("P9", some ATTyp.u8),
   ("LT", some ATTyp.u8), ("PR", some ATTyp.u16), ("RP", some ATTyp.u8),
   ("%V", some ATTyp.u16), ("V+", some ATTyp.u16), ("TP", some ATTyp.u16),
   ("M0", some ATTyp.u16), ("M1", some ATTyp.u16)]

def atEntriesDiagSleepExec : List (String × Option ATTyp) :=
  [("VR", some ATTyp.u16), ("HV", some ATTyp.u16), ("AI", some ATTyp.u8),
   ("CT", some ATTyp.u16), ("CN", none), ("GT", some ATTyp.u16),
   ("CC", some ATTyp.u8),
   ("SM", some ATTyp.u8), ("SN", some ATTyp.u16), ("SP", some ATTyp.u16),
   ("ST", some ATTyp.u16), ("SO", some ATTyp.u8), ("WH", some ATTyp.u16),
   ("SI", none), ("PO", some ATTyp.u16),
   ("AC", none), ("WR", none), ("RE", none), ("FR", none),
   ("NR", some ATTyp.boolT), ("SI", none), ("CB", some ATTyp.u8),
   ("ND", some ATTyp.moduleT), ("DN", some ATTyp.bytesT), ("IS", none),
   ("1S", none), ("AS", none),
   ("CE", some ATTyp.u8)]

def AT_COMMANDS : List (String × Option ATTyp) :=
  atEntriesAddressing ++ atEntriesNetworking ++ atEntriesSecurityRf ++
    atEntriesIo ++ atEntriesDiagSleepExec

/-- `AT_COMMANDS[mnemonic]`: `none` models the dict `KeyError`. -/
def atCommands (mnemonic : String) : Option (Option ATTyp) :=
  (AT_COMMANDS.find? (fun p => p.1 == mnemonic)).map (fun p => p.2)

/-- Modelled from the spec: the fixed-width integer codecs that api.py
takes from `zigpy_xbee.types` (`t.uint8_t`, `t.uint16_t`, ...) are not
defined in src/zigpy_xbee/types.py; spec section 6 describes the field
wire format as "fixed-width big-endian integers, raw byte blobs".
`takeBE w data` reads a `w`-byte big-endian integer and fails
(`ValueError`) on underflow. -/
def takeBE (w : Nat) (data : List Nat) : Except PyErr (Nat × List Nat) :=
  if w ≤ data.length then .ok (fromBytesBE (data.take w), data.drop w)
  else .error .valueError

/-- `response_type.deserialize(value)` (api.py line 428) per the
mnemonic's codec.  Integer widths are modelled from the spec (`takeBE`);
`Bytes.deserialize` is types.py lines 15-18 (whole remainder, nothing
left); the `NI`/`DA`/`ND` entries bind the `types` module itself, which in
this tree has no module-level `deserialize` attribute, so
`response_type.deserialize(value)` raises `AttributeError` for them. -/
def deserializeATTyp : ATTyp → List Nat → Except PyErr (FieldValue × List Nat)
  | .u8, data => (takeBE 1 data).map (fun p => (.num p.1, p.2))
  | .u16, data => (takeBE 2 data).map (fun p => (.num p.1, p.2))
  | .u32, data => (takeBE 4 data).map (fun p => (.num p.1, p.2))
  | .u64, data => (takeBE 8 data).map (fun p => (.num p.1, p.2))
  | .boolT, data => (takeBE 1 data).map (fun p => (.num p.1, p.2))
  | .bytesT, data => .ok (.blob data, [])
  | .moduleT, _ => .error .attributeError

/-- What `_handle_at_response` did to the popped future. -/
inductive ATOutcome
  | resolvedNone
  | resolvedVal (v : FieldValue)
  | rejected (status : ATCommandResult)
deriving Repr, DecidableEq

/-- `XBee._handle_at_response` (api.py lines 410-429).  The first step is
`(fut,) = self._awaiting.pop(frame_id)`, a pop with no default: a missing
frame id raises `KeyError`.  A non-zero (or unmapped) status rejects the
future with the mapped `ATCommandResult` kind; status 0 resolves with no
result when the mnemonic's response type is `None` or the value is empty,
and otherwise with the value deserialized per the mnemonic's type.
Completing an already-done future raises `InvalidStateError`; an unknown
mnemonic raises `KeyError` at the `AT_COMMANDS` lookup. -/
def handleATResponse (awaiting : Awaiting) (frameId : Nat) (cmd : String)
    (status : Nat) (value : List Nat) : Except PyErr (ATOutcome × Awaiting) :=
  match awaiting frameId with
  | none => .error .keyError
  | some fut =>
    let popped := awaiting.pop frameId
    let finish : ATOutcome → Except PyErr (ATOutcome × Awaiting) := fun o =>
      match fut with
      | .done => .error .invalidStateError
      | .pending => .ok (o, popped)
    let st := atCommandResult status
    if st ≠ .OK then finish (.rejected st)
    else
      match atCommands cmd with
      | none => .error .keyError
      | some none => finish .resolvedNone
      | some (some typ) =>
        if value = [] then finish .resolvedNone
        else
          match deserializeATTyp typ value with
          | .error e => .error e
          | .ok (v, _) => finish (.resolvedVal v)

/-- `XBee._handle_remote_at_response` (api.py lines 431-437): logs the
source identity and delegates to `_handle_at_response`. -/
def handleRemoteATResponse (awaiting : Awaiting) (frameId : Nat)
    (cmd : String) (status : Nat) (value : List Nat) :
    Except PyErr (ATOutcome × Awaiting) :=
  handleATResponse awaiting frameId cmd status value

/-- What `_handle_tx_status` did. -/
inductive TxOutcome
  | noEntry
  | resolved (txStatus : Nat)
  | rejectedDelivery (txStatus : Nat)
  | duplicateSwallowed
deriving Repr, DecidableEq

/-- The success-equivalent TX statuses of api.py lines 488-492:
`BROADCAST_APS_TX_ATTEMPT`, `SELF_ADDRESSED`, `SUCCESS`. -/
def txSuccessSet : List Nat := [0x2D, 0x23, 0x00]

/-- `XBee._handle_tx_status` (api.py lines 469-497): pop the pending
request; a missing frame id is caught (`except KeyError`), logged and
ignored.  A success-equivalent status resolves the future with the status,
any other status rejects it with a `DeliveryError` carrying the status;
`InvalidStateError` from completing an already-done future (a duplicate
report racing a prior resolution) is caught and logged. -/
def handleTxStatus (awaiting : Awaiting) (frameId : Nat) (txStatus : Nat) :
    TxOutcome × Awaiting :=
  match awaiting frameId with
  | none => (.noEntry, awaiting)
  | some fut =>
    let popped := awaiting.pop frameId
    match fut with
    | .done => (.duplicateSwallowed, popped)
    | .pending =>
      if txStatus ∈ txSuccessSet then (.resolved txStatus, popped)
      else (.rejectedDelivery txStatus, popped)

/-! ## Claim C4: handling of unallocated / already-popped frame IDs

The claim asserts that *all three* response handlers (local AT, remote AT,
TX status) log and return without raising when the referenced frame id is
not in the pending-request table.  Only `_handle_tx_status` does (api.py
lines 481-484 wrap the pop in `try/except KeyError`); `_handle_at_response`
(and therefore `_handle_remote_at_response`, which delegates to it) pops
with no default (api.py line 411) and lets the `KeyError` escape. -/

/-- **C4 counterexample.** A local AT response whose frame id `1` is not in
the (empty) pending-request table makes `_handle_at_response` raise
`KeyError` instead of logging and returning. -/
theorem at_response_unknown_frame_id_raises :
    handleATResponse Awaiting.empty 1 "AI" 0 [] = .error .keyError := rfl

/-- **C4 amended.** A TX-status frame referencing an unallocated or
already-popped frame id is handled gracefully — logged, no exception, and
the table is untouched; but a local (or remote, which delegates) AT
response referencing such a frame id raises `KeyError` from the
`_awaiting.pop` call. -/
theorem unknown_frame_id_handling (awaiting : Awaiting) (frameId : Nat)
    (h : awaiting frameId = none) :
    (∀ txStatus, handleTxStatus awaiting frameId txStatus = (.noEntry, awaiting)) ∧
    (∀ cmd status value,
      handleATResponse awaiting frameId cmd status value = .error .keyError) ∧
    (∀ cmd status value,
      handleRemoteATResponse awaiting frameId cmd status value = .error .keyError) := by
  refine ⟨?_, ?_, ?_⟩
  · intro txStatus
    simp only [handleTxStatus, h]
  · intro cmd status value
    simp only [handleATResponse, h]
  · intro cmd status value
    simp only [handleRemoteATResponse, handleATResponse, h]

/-- Witness for the amended C4, on the empty table at frame id 5. -/
theorem unknown_frame_id_handling_witness :
    handleTxStatus Awaiting.empty 5 0 = (.noEntry, Awaiting.empty) ∧
    handleRemoteATResponse Awaiting.empty 5 "AI" 0 [] = .error .keyError :=
  ⟨(unknown_frame_id_handling Awaiting.empty 5 rfl).1 0,
   (unknown_frame_id_handling Awaiting.empty 5 rfl).2.2 "AI" 0 []⟩

/-! ## Claim C6: local AT response status mapping

The claim's status-mapping half holds in full generality (status 1 →
generic `ERROR`, status 2 → `INVALID_COMMAND`, unmapped bytes → `ERROR`,
never unresolved for a non-zero status).  Its resolution half — "otherwise
status 0 resolves with the value deserialized per the mnemonic's type" —
is universal over mnemonics and values, and the code does not satisfy it:
`AT_COMMANDS` binds `NI`, `DA` and `ND` to the `types` module itself, so a
status-0 response for those mnemonics with a nonempty value makes
`response_type.deserialize(value)` raise (the module has no `deserialize`
attribute in this tree) and the popped future is never resolved; a value
too short for a fixed-width codec likewise raises instead of resolving. -/

/-- **C6 counterexample.** With a pending request for frame id 1, a
status-0 `NI` response carrying value `41` raises `AttributeError`
(`AT_COMMANDS["NI"]` is the `types` module, not a codec), and a status-0
`ID` response carrying only two bytes of its 8-byte value raises at
deserialization — in both cases the future was popped but never resolved,
contradicting "status 0 ... resolves with the value deserialized per the
mnemonic's type". -/
theorem at_response_status_zero_can_leave_unresolved :
    handleATResponse (Awaiting.empty.insert 1 .pending) 1 "NI" 0 [0x41] =
      .error .attributeError ∧
    handleATResponse (Awaiting.empty.insert 1 .pending) 1 "ID" 0 [0x01, 0x02] =
      .error .valueError :=
  ⟨rfl, rfl⟩

/-- **C6 amended.** With a pending request for `frameId` in the table:
any status byte mapping to a non-`OK` `ATCommandResult` rejects the
future with that kind — in particular status 1 rejects with the generic
AT-error kind (`ERROR`), status 2 with `INVALID_COMMAND`, and any
unmapped status byte (e.g. `0xEE`) still rejects with the generic `ERROR`
kind, never leaving the future unresolved; status 0 with a "no value"
response type or an empty value resolves the future with no result;
status 0 with a nonempty value resolves with the value deserialized per
the mnemonic's type *when that deserialization succeeds*, and raises the
deserialization error — leaving the popped future unresolved — when it
does not (module-typed mnemonics `NI`/`DA`/`ND`, or a value shorter than
the codec's width). -/
theorem at_response_status_mapping (awaiting : Awaiting) (frameId : Nat)
    (h : awaiting frameId = some .pending) :
    (∀ cmd status value, atCommandResult status ≠ .OK →
        handleATResponse awaiting frameId cmd status value =
          .ok (.rejected (atCommandResult status), awaiting.pop frameId)) ∧
    (∀ cmd value, handleATResponse awaiting frameId cmd 1 value =
        .ok (.rejected .ERROR, awaiting.pop frameId)) ∧
    (∀ cmd value, handleATResponse awaiting frameId cmd 2 value =
        .ok (.rejected .INVALID_COMMAND, awaiting.pop frameId)) ∧
    (∀ cmd value, handleATResponse awaiting frameId cmd 0xEE value =
        .ok (.rejected .ERROR, awaiting.pop frameId)) ∧
    (∀ cmd value, atCommands cmd = some none →
        handleATResponse awaiting frameId cmd 0 value =
          .ok (.resolvedNone, awaiting.pop frameId)) ∧
    (∀ cmd typ, atCommands cmd = some (some typ) →
        handleATResponse awaiting frameId cmd 0 [] =
          .ok (.resolvedNone, awaiting.pop frameId)) ∧
    (∀ cmd typ value v rem, atCommands cmd = some (some typ) → value ≠ [] →
        deserializeATTyp typ value = .ok (v, rem) →
        handleATResponse awaiting frameId cmd 0 value =
          .ok (.resolvedVal v, awaiting.pop frameId)) ∧
    (∀ cmd typ value e, atCommands cmd = some (some typ) → value ≠ [] →
        deserializeATTyp typ value = .error e →
        handleATResponse awaiting frameId cmd 0 value = .error e) := by
  have hreject : ∀ cmd status value, atCommandResult status ≠ .OK →
      handleATResponse awaiting frameId cmd status value =
        .ok (.rejected (atCommandResult status), awaiting.pop frameId) := by
    intro cmd status value hst
    simp only [handleATResponse, h, if_pos hst]
  have hok : atCommandResult 0 = ATCommandResult.OK := rfl
  refine ⟨hreject,
          fun cmd value => hreject cmd 1 value (by decide),
          fun cmd value => hreject cmd 2 value (by decide),
          fun cmd value => hreject cmd 0xEE value (by decide),
          ?_, ?_, ?_, ?_⟩
  · intro cmd value hcmd
    simp [handleATResponse, h, hcmd, hok]
  · intro cmd typ hcmd
    simp [handleATResponse, h, hcmd, hok]
  · intro cmd typ value v rem hcmd hval hdes
    simp [handleATResponse, h, hcmd, hok, hval, hdes]
  · intro cmd typ value e hcmd hval hdes
    simp [handleATResponse, h, hcmd, hok, hval, hdes]

/-- Witness for the amended C6, on a one-entry table with a pending
future for frame id 1: a status-0 `AI` response with value `00` resolves
to the integer 0 (the deserialization succeeds), status `0xEE` rejects
with the generic error kind, and a status-0 `CN` (no-value mnemonic)
response resolves with no result despite a nonempty value. -/
theorem at_response_status_mapping_witness :
    handleATResponse (Awaiting.empty.insert 1 .pending) 1 "AI" 0 [0] =
      .ok (.resolvedVal (.num 0), (Awaiting.empty.insert 1 .pending).pop 1) ∧
    handleATResponse (Awaiting.empty.insert 1 .pending) 1 "AI" 0xEE [] =
      .ok (.rejected .ERROR, (Awaiting.empty.insert 1 .pending).pop 1) ∧
    handleATResponse (Awaiting.empty.insert 1 .pending) 1 "CN" 0 [1] =
      .ok (.resolvedNone, (Awaiting.empty.insert 1 .pending).pop 1) :=
  ⟨(at_response_status_mapping (Awaiting.empty.insert 1 .pending) 1 rfl).2.2.2.2.2.2.1
      "AI" ATTyp.u8 [0] (.num 0) [] rfl (by decide) rfl,
   (at_response_status_mapping (Awaiting.empty.insert 1 .pending) 1 rfl).2.2.2.1 "AI" [],
   (at_response_status_mapping (Awaiting.empty.insert 1 .pending) 1 rfl).2.2.2.2.1
      "CN" [1] rfl⟩

/-! ## Claim C7: TX-status resolution and duplicate reports -/

/-- **C7.** For a tracked frame id with a pending future,
`_handle_tx_status` resolves the future with the status exactly when the
status is in the success-equivalent set (`SUCCESS = 0x00`,
`SELF_ADDRESSED = 0x23`, `BROADCAST_APS_TX_ATTEMPT = 0x2D`), and rejects
it with a delivery-failure error carrying the status for every other
status code; when the tracked future is already completed (a duplicate
report racing a prior resolution), the `InvalidStateError` is swallowed
and logged, never raised. -/
theorem tx_status_resolution (awaiting : Awaiting) (frameId : Nat) :
    (awaiting frameId = some .pending →
      ∀ txStatus,
        (txStatus ∈ txSuccessSet →
          handleTxStatus awaiting frameId txStatus =
            (.resolved txStatus, awaiting.pop frameId)) ∧
        (txStatus ∉ txSuccessSet →
          handleTxStatus awaiting frameId txStatus =
            (.rejectedDelivery txStatus, awaiting.pop frameId))) ∧
    (awaiting frameId = some .done →
      ∀ txStatus, handleTxStatus awaiting frameId txStatus =
        (.duplicateSwallowed, awaiting.pop frameId)) := by
  constructor
  · intro h txStatus
    constructor
    · intro hmem
      simp only [handleTxStatus, h, if_pos hmem]
    · intro hmem
      simp only [handleTxStatus, h, if_neg hmem]
  · intro h txStatus
    simp only [handleTxStatus, h]

/-- Witness for C7, on a one-entry table for frame id 7: `SUCCESS` (0x00)
resolves, `ADDRESS_NOT_FOUND` (0x24) rejects with a delivery error, and a
report for an already-completed future is swallowed. -/
theorem tx_status_resolution_witness :
    handleTxStatus (Awaiting.empty.insert 7 .pending) 7 0x00 =
      (.resolved 0x00, (Awaiting.empty.insert 7 .pending).pop 7) ∧
    handleTxStatus (Awaiting.empty.insert 7 .pending) 7 0x24 =
      (.rejectedDelivery 0x24, (Awaiting.empty.insert 7 .pending).pop 7) ∧
    handleTxStatus (Awaiting.empty.insert 7 .done) 7 0x00 =
      (.duplicateSwallowed, (Awaiting.empty.insert 7 .done).pop 7) :=
  ⟨((tx_status_resolution (Awaiting.empty.insert 7 .pending) 7).1 rfl 0x00).1 (by decide),
   ((tx_status_resolution (Awaiting.empty.insert 7 .pending) 7).1 rfl 0x24).2 (by decide),
   (tx_status_resolution (Awaiting.empty.insert 7 .done) 7).2 rfl 0x00⟩

/-! ## Frame dispatch (`XBee.frame_received`, api.py lines 401-408) -/

/-- `ModemStatus` values defined in api.py lines 23-39; an undefined value
clamps to `_UNDEFINED = 0xFF` (via `UndefinedEnum`, types.py lines 45-63). -/
def modemStatusKnown : List Nat :=
  [0x00, 0x01, 0x02, 0x03, 0x06, 0x07, 0x0D, 0x11, 0x3E, 0x3F, 0x43, 0x44, 0x45, 0xFF]

/-- `ModemStatus(value)` construction with the `UndefinedEnum` fallback. -/
def modemStatusOf (b : Nat) : Nat :=
  if b ∈ modemStatusKnown then b else 0xFF

/-- `TXStatus` values defined in types.py lines 91-149; an undefined value
clamps to `_UNDEFINED = 0x2C`. -/
def txStatusKnown : List Nat :=
  [0x00, 0x01, 0x02, 0x03, 0x15, 0x21, 0x22, 0x23, 0x24, 0x25, 0x26, 0x2B,
   0x2C, 0x2D, 0x2E, 0x31, 0x32, 0x74]

/-- `TXStatus(value)` construction with the `UndefinedEnum` fallback. -/
def txStatusOf (b : Nat) : Nat :=
  if b ∈ txStatusKnown then b else 0x2C

/-- `DiscoveryStatus` values defined in types.py lines 152-160; an
undefined value clamps to `_UNDEFINED = 0x00`. -/
def discoveryStatusKnown : List Nat := [0x00, 0x01, 0x02, 0x03, 0x40]

/-- `DiscoveryStatus(value)` construction with the `UndefinedEnum` fallback. -/
def discoveryStatusOf (b : Nat) : Nat :=
  if b ∈ discoveryStatusKnown then b else 0x00

/-- The field types appearing in the `COMMAND_RESPONSES` schemas
(api.py lines 75-109). -/
inductive FieldType
  | frameId
  | atCommand
  | bytes
  | u8
  | u16
  | eui64
  | nwk
  | modemStatus
  | txStatus
  | discoveryStatus
  | relays
deriving Repr, DecidableEq

/-- Reads `count` big-endian `NWK` (2-byte) items for a `Relays` list
(types.py line 83: `LVList` of `NWK` with a `uint8_t` length). -/
def readNWKs : Nat → List Nat → Except PyErr (List Nat × List Nat)
  | 0, data => .ok ([], data)
  | count + 1, data =>
    match takeBE 2 data with
    | .error e => .error e
    | .ok (v, rest) =>
      match readNWKs count rest with
      | .error e => .error e
      | .ok (vs, rest') => .ok (v :: vs, rest')

/-- One field's deserializer.  `FrameId` and `uint8_t` read one byte;
`NWK` is `uint16_t_be` (types.py line 71); `ATCommand.deserialize` takes
the first two bytes without a length check (types.py lines 24-27);
`Bytes.deserialize` takes the whole remainder (types.py lines 15-18);
`EUI64.deserialize` reads 8 bytes and reverses them (types.py lines
30-37); the enum types read one byte and clamp per `UndefinedEnum`.
`uint8_t`/`uint16_t` widths follow spec section 6 (see `takeBE`). -/
def deserializeField : FieldType → List Nat → Except PyErr (FieldValue × List Nat)
  | .frameId, data => (takeBE 1 data).map (fun p => (.num p.1, p.2))
  | .atCommand, data => .ok (.blob (data.take 2), data.drop 2)
  | .bytes, data => .ok (.blob data, [])
  | .u8, data => (takeBE 1 data).map (fun p => (.num p.1, p.2))
  | .u16, data => (takeBE 2 data).map (fun p => (.num p.1, p.2))
  | .eui64, data =>
    if 8 ≤ data.length then .ok (.blob (data.take 8).reverse, data.drop 8)
    else .error .valueError
  | .nwk, data => (takeBE 2 data).map (fun p => (.num p.1, p.2))
  | .modemStatus, data => (takeBE 1 data).map (fun p => (.num (modemStatusOf p.1), p.2))
  | .txStatus, data => (takeBE 1 data).map (fun p => (.num (txStatusOf p.1), p.2))
  | .discoveryStatus, data =>
    (takeBE 1 data).map (fun p => (.num (discoveryStatusOf p.1), p.2))
  | .relays, data =>
    match takeBE 1 data with
    | .error e => .error e
    | .ok (count, rest) => (readNWKs count rest).map (fun p => (.numList p.1, p.2))

/-- `t.deserialize(data, schema)` — the sequential schema deserializer
api.py line 404 applies to the frame body.  Modelled from the spec: the
helper lives in `zigpy_xbee.types` in the shipped package but is not
present in src/zigpy_xbee/types.py; spec section 4.3 describes it as
"deserialize the remaining bytes per that command's field schema". -/
def deserializeSchema : List FieldType → List Nat →
    Except PyErr (List FieldValue × List Nat)
  | [], data => .ok ([], data)
  | ft :: fts, data =>
    match deserializeField ft data with
    | .error e => .error e
    | .ok (v, rest) =>
      match deserializeSchema fts rest with
      | .error e => .error e
      | .ok (vs, rest') => .ok (v :: vs, rest')

/-- `COMMAND_RESPONSES` (api.py lines 75-109): command name, frame-type
byte, field schema, in source order.  (The third tuple component of the
source, the expected-reply type, is `None` for every response and is
omitted.) -/
def commandResponses : List (String × Nat × List FieldType) :=
  [("at_response", 0x88, [FieldType.frameId, FieldType.atCommand, FieldType.u8, FieldType.bytes]),
   ("modem_status", 0x8A, [FieldType.modemStatus]),
   ("tx_status", 0x8B, [FieldType.frameId, FieldType.nwk, FieldType.u8,
      FieldType.txStatus, FieldType.discoveryStatus]),
   ("route_information", 0x8D, []),
   ("rx", 0x90, []),
   ("explicit_rx_indicator", 0x91, [FieldType.eui64, FieldType.nwk, FieldType.u8,
      FieldType.u8, FieldType.u16, FieldType.u16, FieldType.u8, FieldType.bytes]),
   ("rx_io_data_long_addr", 0x92, []),
   ("remote_at_response", 0x97, [FieldType.frameId, FieldType.eui64, FieldType.nwk,
      FieldType.atCommand, FieldType.u8, FieldType.bytes]),
   ("extended_status", 0x98, []),
   ("route_record_indicator", 0xA1, [FieldType.eui64, FieldType.nwk, FieldType.u8,
      FieldType.relays]),
   ("many_to_one_rri", 0xA3, [FieldType.eui64, FieldType.nwk, FieldType.u8]),
   ("node_id_indicator", 0x95, [])]

/-- `XBee._commands_by_id` (api.py line 258): frame-type byte to command
name; `none` models the dict `KeyError` on an unknown type byte. -/
def commandsById (typeByte : Nat) : Option String :=
  (commandResponses.find? (fun c => c.2.1 == typeByte)).map (fun c => c.1)

/-- The field schema of a known response command. -/
def schemaOf (cmd : String) : List FieldType :=
  ((commandResponses.find? (fun c => c.1 == cmd)).map (fun c => c.2.2)).getD []

/-- The commands for which `XBee` defines a `_handle_<name>` method
(api.py lines 410-497); for the rest, `getattr` falls through to
`__getattr__` (api.py lines 605-608), which raises `AttributeError` —
caught by `frame_received` and logged.  `registration_status` (0xA4) has
no entry in `COMMAND_RESPONSES` in this tree, so the handler set is
exactly these seven. -/
def handlerNames : List String :=
  ["at_response", "remote_at_response", "many_to_one_rri", "modem_status",
   "explicit_rx_indicator", "route_record_indicator", "tx_status"]

/-- Whether a `_handle_<cmd>` method exists. -/
def hasHandler (cmd : String) : Bool := cmd ∈ handlerNames

/-- The dispatch decision taken by `frame_received`: either the decoded
fields are passed to the named `_handle_<cmd>` method, or no handler
exists and the frame is logged and dropped (the `except AttributeError`
branch). -/
inductive Dispatch
  | handled (cmd : String) (args : List FieldValue)
  | noHandler (cmd : String)
deriving Repr, DecidableEq

/-- `XBee.frame_received` (api.py lines 401-408) up to the handler
boundary: `data[0]` indexes the raw frame (IndexError on an empty frame);
`self._commands_by_id[data[0]]` raises `KeyError` for a frame type byte
with no entry; the body is deserialized per the command's schema; then
the handler named after the command is invoked with the decoded fields,
with a missing handler (`AttributeError`) logged and the frame dropped.
The handlers' own state transitions are modelled separately
(`handleATResponse`, `handleTxStatus`, ...). -/
def frameReceived (data : List Nat) : Except PyErr Dispatch :=
  match data with
  | [] => .error .indexError
  | typeByte :: rest =>
    match commandsById typeByte with
    | none => .error .keyError
    | some cmd =>
      match deserializeSchema (schemaOf cmd) rest with
      | .error e => .error e
      | .ok (args, _) =>
        if hasHandler cmd then .ok (.handled cmd args)
        else .ok (.noHandler cmd)

/-! ## Claim C5: `frame_received` on unknown frame types

The claim asserts `frame_received` never raises for any received raw
frame, including frame types unknown to the receiver.  In the code only
`AttributeError` (missing handler method) is caught; the very first
statement `command = self._commands_by_id[data[0]]` (api.py line 402)
raises an uncaught `KeyError` whenever the type byte has no entry in
`COMMAND_RESPONSES`. -/

/-- **C5 counterexample.** A one-byte frame with unknown type byte `0x00`
makes `frame_received` raise `KeyError` at the command lookup instead of
logging and dropping. -/
theorem frame_received_unknown_type_raises :
    frameReceived [0x00] = .error .keyError := rfl

/-- **C5 amended.** `frame_received` reads the first byte as the frame
type, looks the command up by that byte and deserializes the rest per the
command's schema; for known response types with no `_handle_` method
(`route_information` 0x8D, `rx` 0x90, `rx_io_data_long_addr` 0x92,
`node_id_indicator` 0x95, `extended_status` 0x98) the `AttributeError` is
caught, so the frame is logged and dropped without crashing, whatever the
body; a frame whose type byte has no entry in the response table,
however, raises an uncaught `KeyError`; a known frame with a handler is
dispatched to it with the decoded fields. -/
theorem frame_received_dispatch :
    (∀ rest, frameReceived (0x8D :: rest) = .ok (.noHandler "route_information")) ∧
    (∀ rest, frameReceived (0x90 :: rest) = .ok (.noHandler "rx")) ∧
    (∀ rest, frameReceived (0x92 :: rest) = .ok (.noHandler "rx_io_data_long_addr")) ∧
    (∀ rest, frameReceived (0x95 :: rest) = .ok (.noHandler "node_id_indicator")) ∧
    (∀ rest, frameReceived (0x98 :: rest) = .ok (.noHandler "extended_status")) ∧
    (∀ typeByte rest, commandsById typeByte = none →
      frameReceived (typeByte :: rest) = .error .keyError) ∧
    (frameReceived [0x8A, 0x06] = .ok (.handled "modem_status" [.num 0x06])) := by
  refine ⟨?_, ?_, ?_, ?_, ?_, ?_, rfl⟩
  · intro rest
    simp [frameReceived, show commandsById 0x8D = some "route_information" from rfl,
      show schemaOf "route_information" = [] from rfl, deserializeSchema,
      show hasHandler "route_information" = false from rfl]
  · intro rest
    simp [frameReceived, show commandsById 0x90 = some "rx" from rfl,
      show schemaOf "rx" = [] from rfl, deserializeSchema,
      show hasHandler "rx" = false from rfl]
  · intro rest
    simp [frameReceived, show commandsById 0x92 = some "rx_io_data_long_addr" from rfl,
      show schemaOf "rx_io_data_long_addr" = [] from rfl, deserializeSchema,
      show hasHandler "rx_io_data_long_addr" = false from rfl]
  · intro rest
    simp [frameReceived, show commandsById 0x95 = some "node_id_indicator" from rfl,
      show schemaOf "node_id_indicator" = [] from rfl, deserializeSchema,
      show hasHandler "node_id_indicator" = false from rfl]
  · intro rest
    simp [frameReceived, show commandsById 0x98 = some "extended_status" from rfl,
      show schemaOf "extended_status" = [] from rfl, deserializeSchema,
      show hasHandler "extended_status" = false from rfl]
  · intro typeByte rest hk
    simp [frameReceived, hk]

/-- Witness for the amended C5: an `extended_status` frame with an
arbitrary body is dropped without an exception, and type byte `0x11`
(a request type, not a response type) raises `KeyError`. -/
theorem frame_received_dispatch_witness :
    frameReceived [0x98, 0xAB, 0xCD] = .ok (.noHandler "extended_status") ∧
    frameReceived [0x11, 0x01] = .error .keyError :=
  ⟨frame_received_dispatch.2.2.2.2.1 [0xAB, 0xCD],
   frame_received_dispatch.2.2.2.2.2.1 0x11 [0x01] rfl⟩

/-! ## Claim C8: the frame-ID sequence counter (`XBee._command`) -/

/-- `COMMAND_REQUESTS` (api.py lines 43-74): command name, frame-type
byte, expected-reply frame-type byte (`None` for fire-and-forget).  The
request field schemas are not needed by any claim and are omitted. -/
def commandRequests : List (String × Nat × Option Nat) :=
  [("at", 0x08, some 0x88),
   ("queued_at", 0x09, some 0x88),
   ("remote_at", 0x17, some 0x97),
   ("tx", 0x10, none),
   ("tx_explicit", 0x11, some 0x8B),
   ("create_source_route", 0x21, none),
   ("register_joining_device", 0x24, none)]

/-- `self._seq = (self._seq % 255) + 1` (api.py line 365). -/
def nextSeq (s : Nat) : Nat := s % 255 + 1

/-- The correlator state touched by `_command`: the sequence counter
(`self._seq`, initialized to 1, api.py line 257) and the pending-request
table. -/
structure ApiState where
  seq : Nat
  awaiting : Awaiting

/-- `XBee._command` (api.py lines 354-366) as a state transition, given a
live uart (a missing transport raises `APIException` before any of this
runs).  Returns `(frame id used, whether a pending request was created,
new state)`; `none` models the `AttributeError` that `__getattr__`
raises for a command name absent from `COMMAND_REQUESTS`.  A pending
request is created only when the command declares an expected reply AND
the frame id is non-zero (`if needs_response and frame_id:`); the
sequence counter always advances. -/
def commandStep (st : ApiState) (name : String) (mask : Bool) :
    Option (Nat × Bool × ApiState) :=
  match commandRequests.find? (fun c => c.1 == name) with
  | none => none
  | some (_, _, reply) =>
    let frameId := if mask then 0 else st.seq
    let tracked := reply.isSome && frameId != 0
    let awaiting' := if tracked then st.awaiting.insert frameId .pending else st.awaiting
    some (frameId, tracked, ⟨nextSeq st.seq, awaiting'⟩)

/-- The counter value after `k` calls to `_command` starting from the
initial `self._seq = 1`; the `(k+1)`-th sequenced (unmasked) request uses
`seqAfter k` as its frame id. -/
def seqAfter : Nat → Nat
  | 0 => 1
  | k + 1 => nextSeq (seqAfter k)

set_option maxRecDepth 4000 in
/-- **C8.** The sequence counter stays in `1..255` and is never 0: every
`_command` call advances it by `nextSeq`, which maps into `1..255`
whatever the current value; starting from 1, after 255 sequenced requests
the counter is back at 1, so the 256th request reuses frame id 1 (and 0
is never emitted); and when `mask_frame_id` is true the frame goes out
with frame id 0 and no pending request is tracked. -/
theorem frame_id_counter :
    (∀ st name mask frameId tracked st',
        commandStep st name mask = some (frameId, tracked, st') →
        st'.seq = nextSeq st.seq) ∧
    (∀ s, 1 ≤ nextSeq s ∧ nextSeq s ≤ 255) ∧
    (∀ k, 1 ≤ seqAfter k ∧ seqAfter k ≤ 255 ∧ seqAfter k ≠ 0) ∧
    (seqAfter 255 = 1) ∧
    (∀ st name frameId tracked st',
        commandStep st name true = some (frameId, tracked, st') →
        frameId = 0 ∧ tracked = false ∧ st'.awaiting = st.awaiting) := by
  have hbound : ∀ s, 1 ≤ nextSeq s ∧ nextSeq s ≤ 255 := by
    intro s
    unfold nextSeq
    have : s % 255 < 255 := Nat.mod_lt s (by norm_num)
    omega
  refine ⟨?_, hbound, ?_, by decide, ?_⟩
  · intro st name mask frameId tracked st' h
    unfold commandStep at h
    cases hf : commandRequests.find? (fun c => c.1 == name) with
    | none => simp [hf] at h
    | some c =>
      obtain ⟨n, tb, reply⟩ := c
      simp only [hf, Option.some.injEq, Prod.mk.injEq] at h
      obtain ⟨-, -, h3⟩ := h
      simp [← h3]
  · intro k
    induction k with
    | zero => simp [seqAfter]
    | succ k ih =>
      have := hbound (seqAfter k)
      refine ⟨(hbound (seqAfter k)).1, (hbound (seqAfter k)).2, ?_⟩
      have := (hbound (seqAfter k)).1
      simp only [seqAfter]
      omega
  · intro st name frameId tracked st' h
    unfold commandStep at h
    cases hf : commandRequests.find? (fun c => c.1 == name) with
    | none => simp [hf] at h
    | some c =>
      obtain ⟨n, tb, reply⟩ := c
      simp only [hf, Option.some.injEq, Prod.mk.injEq, if_true, Bool.and_eq_true,
        bne_self_eq_false, Bool.and_false, Bool.false_eq_true, if_false] at h
      obtain ⟨h1, h2, h3⟩ := h
      refine ⟨h1.symm, h2.symm, ?_⟩
      simp [← h3]

/-- Witness for C8: a masked `tx_explicit` from the initial state emits
frame id 0 and tracks nothing; an unmasked `at` from the initial state
advances the counter from 1 to 2. -/
theorem frame_id_counter_witness :
    (commandStep ⟨1, Awaiting.empty⟩ "tx_explicit" true).map
        (fun r => (r.1, r.2.1, r.2.2.seq)) = some (0, false, 2) ∧
    (commandStep ⟨1, Awaiting.empty⟩ "at" false).map
        (fun r => r.2.2.seq) = some (nextSeq 1) := by
  constructor
  · have h := frame_id_counter.2.2.2.2 ⟨1, Awaiting.empty⟩ "tx_explicit" 0 false
      ⟨nextSeq 1, Awaiting.empty⟩ rfl
    exact rfl
  · have h := frame_id_counter.1 ⟨1, Awaiting.empty⟩ "at" false 1 true
      ⟨nextSeq 1, Awaiting.empty.insert 1 .pending⟩ rfl
    rw [show commandStep ⟨1, Awaiting.empty⟩ "at" false =
        some (1, true, ⟨nextSeq 1, Awaiting.empty.insert 1 .pending⟩) from rfl]
    simp [h]

/-! ## Claim C10: `init_api_mode` baud-rate sweep (api.py lines 531-573)

`enter_at_command_mode` and `command_mode_at_cmd` are async exchanges with
the module over the transport; they are abstracted as oracles: `enterOk b`
tells whether entering command mode succeeds while the transport is at
baud rate `b` (the truthiness of `enter_at_command_mode()`'s result), and
`ack c` gives the command-mode response to the text command `c`. -/

/-- A `command_mode_at_cmd` result: `True` on an `OK` response, `False` on
`ERROR`, `None` on timeout, or the raw response text (api.py lines
502-524); `truthy` is its Python truth value as used in `if` tests. -/
inductive CmdModeRsp
  | okRsp
  | errorRsp
  | timeoutRsp
  | textRsp (s : String)
deriving Repr, DecidableEq

/-- Python truthiness of the result (a nonempty text is truthy). -/
def CmdModeRsp.truthy : CmdModeRsp → Bool
  | .okRsp => true
  | .errorRsp => false
  | .timeoutRsp => false
  | .textRsp s => s != ""

/-- `BAUDRATE_TO_BD` (api.py lines 232-242). -/
def BAUDRATE_TO_BD (baudrate : Nat) : Option String :=
  if baudrate = 1200 then some "ATBD0"
  else if baudrate = 2400 then some "ATBD1"
  else if baudrate = 4800 then some "ATBD2"
  else if baudrate = 9600 then some "ATBD3"
  else if baudrate = 19200 then some "ATBD4"
  else if baudrate = 38400 then some "ATBD5"
  else if baudrate = 57600 then some "ATBD6"
  else if baudrate = 115200 then some "ATBD7"
  else if baudrate = 230400 then some "ATBD8"
  else none

/-- `sorted(BAUDRATE_TO_BD.keys())` (api.py line 554): the candidate baud
rates in ascending order. -/
def candidateBauds : List Nat :=
  [1200, 2400, 4800, 9600, 19200, 38400, 57600, 115200, 230400]

/-- The `for cmd in cmds:` loop of `api_mode_at_commands` (api.py lines
539-545): each command is sent carriage-return terminated; the first
non-truthy response aborts with `None`; all acknowledged yields `True`. -/
def apiModeAtCommandsGo (ack : String → CmdModeRsp) : List String → Option Bool
  | [] => some true
  | c :: rest =>
    if (ack (c ++ "\r")).truthy then apiModeAtCommandsGo ack rest
    else none

/-- `XBee.api_mode_at_commands(baudrate)` (api.py lines 531-545): issue
`ATAP2`, `ATWR`, `ATCN`, prepending the `ATBD<n>` command when `baudrate`
has an entry in `BAUDRATE_TO_BD`.  (On success the real method also calls
`self._uart.reset_command_mode()`, a framer-flag side effect no claim
touches.) -/
def apiModeAtCommands (ack : String → CmdModeRsp) (baudrate : Nat) : Option Bool :=
  let cmds := ["ATAP2", "ATWR", "ATCN"]
  let cmds :=
    match BAUDRATE_TO_BD baudrate with
    | some bd => bd :: cmds
    | none => cmds
  apiModeAtCommandsGo ack cmds

/-- The `for baudrate in sorted(BAUDRATE_TO_BD.keys()):` loop of
`init_api_mode` (api.py lines 554-565) over the remaining candidate list.
The second component records every assignment made to
`self._uart.baudrate`, in order: each candidate is set before the attempt,
and on the first success `current_baudrate` (the original target) is
restored after `api_mode_at_commands(current_baudrate)` runs.  Result
`some false` is the final `return False`; `none` is the Python `None`
that `api_mode_at_commands` returns when a command goes unacknowledged. -/
def initApiModeLoop (enterOk : Nat → Bool) (ack : String → CmdModeRsp)
    (orig : Nat) : List Nat → Option Bool × List Nat
  | [] => (some false, [])
  | b :: rest =>
    if enterOk b then (apiModeAtCommands ack orig, [b, orig])
    else
      let r := initApiModeLoop enterOk ack orig rest
      (r.1, b :: r.2)

/-- `XBee.init_api_mode` (api.py lines 547-573): try entering command mode
at the current baud rate (`baud0`); on success run the configuration
commands targeting that same rate (no baud change recorded); otherwise
sweep the candidate rates.  Returns the result together with the trace of
baud-rate assignments. -/
def initApiMode (enterOk : Nat → Bool) (ack : String → CmdModeRsp)
    (baud0 : Nat) : Option Bool × List Nat :=
  if enterOk baud0 then (apiModeAtCommands ack baud0, [])
  else initApiModeLoop enterOk ack baud0 candidateBauds

/-- If command mode cannot be entered at any rate in the list, the sweep
sets every rate in order and ends with `False` (no exception). -/
theorem initApiModeLoop_all_fail (enterOk : Nat → Bool) (ack : String → CmdModeRsp)
    (orig : Nat) (l : List Nat) (h : ∀ b ∈ l, enterOk b = false) :
    initApiModeLoop enterOk ack orig l = (some false, l) := by
  induction l with
  | nil => rfl
  | cons b rest ih =>
    have hb : enterOk b = false := h b (by simp)
    simp only [initApiModeLoop, hb, Bool.false_eq_true, if_false]
    rw [ih (fun x hx => h x (by simp [hx]))]

/-- The sweep stops at the first rate that acknowledges the escape
sequence: every earlier rate is tried and set, the successful rate is set,
the configuration runs targeting `orig`, and `orig` is restored last. -/
theorem initApiModeLoop_first_success (enterOk : Nat → Bool)
    (ack : String → CmdModeRsp) (orig : Nat) (pre : List Nat) (b : Nat)
    (post : List Nat) (hpre : ∀ x ∈ pre, enterOk x = false)
    (hb : enterOk b = true) :
    initApiModeLoop enterOk ack orig (pre ++ b :: post) =
      (apiModeAtCommands ack orig, pre ++ [b, orig]) := by
  induction pre with
  | nil =>
    simp only [List.nil_append, initApiModeLoop, hb, if_true]
  | cons x xs ih =>
    have hx : enterOk x = false := hpre x (by simp)
    simp only [List.cons_append, initApiModeLoop, hx, Bool.false_eq_true, if_false,
      List.append_eq]
    rw [ih (fun y hy => hpre y (by simp [hy]))]

/-- **C10.** When entering command mode at the current baud fails,
`init_api_mode` iterates the candidate baud rates in ascending order
(`candidateBauds` is strictly increasing and holds exactly the keys of
`BAUDRATE_TO_BD`), switching the transport baud for each attempt; at the
first rate that acknowledges, it runs the configuration command sequence
targeting the *original* baud and then restores the original baud on the
transport (the last recorded assignment); if every candidate rate fails it
returns the explicit failure value `False` — no exception. -/
theorem init_api_mode_baud_sweep :
    List.Chain' (· < ·) candidateBauds ∧
    (∀ b : Nat, (BAUDRATE_TO_BD b).isSome = (b ∈ candidateBauds : Bool)) ∧
    (∀ enterOk ack baud0, enterOk baud0 = false →
      (∀ b ∈ candidateBauds, enterOk b = false) →
      initApiMode enterOk ack baud0 = (some false, candidateBauds)) ∧
    (∀ enterOk ack baud0 pre b post, enterOk baud0 = false →
      candidateBauds = pre ++ b :: post →
      (∀ x ∈ pre, enterOk x = false) →
      enterOk b = true →
      initApiMode enterOk ack baud0 = (apiModeAtCommands ack baud0, pre ++ [b, baud0])) := by
  refine ⟨by simp [candidateBauds, List.chain'_cons], ?_, ?_, ?_⟩
  · intro b
    by_cases h : b ∈ candidateBauds
    · fin_cases h <;> rfl
    · have hn : BAUDRATE_TO_BD b = none := by
        simp only [candidateBauds, List.mem_cons, List.not_mem_nil, or_false] at h
        push_neg at h
        simp [BAUDRATE_TO_BD, h]
      simp [hn, h]
  · intro enterOk ack baud0 h0 hall
    simp only [initApiMode, h0, Bool.false_eq_true, if_false]
    exact initApiModeLoop_all_fail enterOk ack baud0 candidateBauds hall
  · intro enterOk ack baud0 pre b post h0 hsplit hpre hb
    simp only [initApiMode, h0, Bool.false_eq_true, if_false, hsplit]
    exact initApiModeLoop_first_success enterOk ack baud0 pre b post hpre hb

/-- Witness for C10: only 19200 acknowledges, the target is 57600, and
every command-mode command is acknowledged: the sweep tries
1200..9600 (all failing), succeeds at 19200, configures for 57600
(`ATBD6` first) and restores 57600; with nothing acknowledging, the sweep
tries all nine rates and returns `False`. -/
theorem init_api_mode_baud_sweep_witness :
    initApiMode (fun b => b == 19200) (fun _ => CmdModeRsp.okRsp) 57600 =
      (some true, [1200, 2400, 4800, 9600, 19200, 57600]) ∧
    initApiMode (fun _ => false) (fun _ => CmdModeRsp.okRsp) 57600 =
      (some false, candidateBauds) := by
  constructor
  · rw [init_api_mode_baud_sweep.2.2.2 (fun b => b == 19200)
      (fun _ => CmdModeRsp.okRsp) 57600 [1200, 2400, 4800, 9600] 19200
      [38400, 57600, 115200, 230400] (by decide) (by decide) (by decide) (by decide)]
    decide
  · exact init_api_mode_baud_sweep.2.2.1 (fun _ => false)
      (fun _ => CmdModeRsp.okRsp) 57600 rfl (by decide)

end ZigpyXbee
